import Mathlib

set_option maxRecDepth 4000

/-!
Shallow embedding of `cdk-eventbridge-appsync-oauth/cdk/lib/main.ts`.

The repository's only source file is a CDK stack definition.  We embed the
stack as a record of construct property records, built by a `mainStack`
function that mirrors the constructor body statement by statement.
Synthesis-time values that are only resolved at deploy time (attribute
references, Refs, pseudo parameters, outputs of the `Auth` sub-construct
whose code is not part of the repository snapshot) are modelled symbolically
by the `Token` type, exactly as the provisioning engine treats them.
The two VTL mapping templates are embedded both as their literal source
strings and as a small statement AST whose rendering is proved equal to the
literal strings; their evaluation semantics is given at the JSON-value level.
-/

/-- JSON values, the value domain of GraphQL arguments and results handled by
the mapping templates. -/
inductive Json where
  | null : Json
  | bool (b : Bool) : Json
  | num (n : Int) : Json
  | str (s : String) : Json
  | arr (xs : List Json) : Json
  | obj (fields : List (String × Json)) : Json
deriving Repr

/-- Lookup of a key in an association list of JSON object fields. -/
def lookupField (k : String) : List (String × Json) → Option Json
  | [] => none
  | (k', v) :: rest => if k' = k then some v else lookupField k rest

/-- Insertion into an association list as performed by the VTL map `put`:
replace the value in place when the key is present, append otherwise. -/
def putEntry (l : List (String × Json)) (k : String) (v : Json) :
    List (String × Json) :=
  match l with
  | [] => [(k, v)]
  | (k', v') :: rest =>
      if k' = k then (k', v) :: rest else (k', v') :: putEntry rest k v

/-- Synthesis-time string values.  A `Token` is either a literal string, the
concatenation produced by template-literal interpolation, a CloudFormation
attribute reference (`Fn::GetAtt`), a `Ref` to a resource or template
parameter, a pseudo parameter such as the region or account, or an output of
the `Auth` sub-construct (whose implementation file is not in the snapshot,
so its outputs stay opaque). -/
inductive Token where
  | lit (s : String) : Token
  | concat (a b : Token) : Token
  | getAtt (logicalId attr : String) : Token
  | ref (logicalId : String) : Token
  | pseudo (name : String) : Token
  | authAttr (name : String) : Token
deriving DecidableEq, Repr

instance : Inhabited Token := ⟨Token.lit ""⟩

/-- Properties of the `authDomainName` CfnParameter. -/
structure CfnParameterProps where
  type : String
  description : String
deriving DecidableEq, Repr

/-- Properties passed to the `Auth` sub-construct. -/
structure AuthConstruct where
  authDomainPrefixValue : Token
deriving DecidableEq, Repr

/-- Properties of the `AuthorizerFunction` PythonFunction. -/
structure PythonFunctionProps where
  entry : String
  index : String
  runtime : String
  environment : List (String × Token)
deriving DecidableEq, Repr

/-- AppSync authorization types used by the stack. -/
inductive AuthorizationType where
  | API_KEY : AuthorizationType
  | LAMBDA : AuthorizationType
  | IAM : AuthorizationType
  | USER_POOL : AuthorizationType
  | OIDC : AuthorizationType
deriving DecidableEq, Repr

/-- One authorization mode of the GraphQL API: a type, and for the LAMBDA
type the logical id of the handler function. -/
structure AuthorizationMode where
  authorizationType : AuthorizationType
  lambdaHandler : Option String
deriving DecidableEq, Repr

/-- Properties of the `Api` GraphqlApi construct. -/
structure GraphqlApiProps where
  name : String
  schemaAsset : String
  defaultAuthorization : AuthorizationMode
  additionalAuthorizationModes : List AuthorizationMode
deriving DecidableEq, Repr

/-- Whether the authorization configuration of a GraphqlApi contains an
API_KEY mode (as default or additional mode). -/
def GraphqlApiProps.hasApiKeyMode (p : GraphqlApiProps) : Bool :=
  p.defaultAuthorization.authorizationType = AuthorizationType.API_KEY ||
    p.additionalAuthorizationModes.any
      (fun m => m.authorizationType = AuthorizationType.API_KEY)

/-- Modelled from the `@aws-cdk/aws-appsync` GraphqlApi construct (library
code, not part of the repository): the construct creates an ApiKey resource
exactly when the authorization configuration contains an API_KEY mode, and
its `apiKey` attribute is then the key's attribute token, otherwise
`undefined`. -/
def GraphqlApiProps.apiKeyAttr (p : GraphqlApiProps) : Option Token :=
  if p.hasApiKeyMode then some (Token.getAtt "ApiDefaultApiKey" "ApiKey")
  else none

/-- A resolver attached to a data source of the API. -/
structure ResolverProps where
  dataSourceName : String
  typeName : String
  fieldName : String
  requestMappingTemplate : String
  responseMappingTemplate : String
deriving DecidableEq, Repr

/-- Lambda permission added to the authorizer function. -/
structure PermissionProps where
  id : String
  principal : String
  sourceArn : Token
  sourceAccount : Option String
deriving DecidableEq, Repr

/-- Properties of the `bus` CfnEventBus. -/
structure CfnEventBusProps where
  name : String
deriving DecidableEq, Repr

/-- OAuth parameters of the `connection` CfnConnection. -/
structure OAuthParametersProps where
  authorizationEndpoint : Token
  clientID : Token
  clientSecret : Token
  httpMethod : String
  bodyParameters : List (String × String)
deriving DecidableEq, Repr

/-- Properties of the `connection` CfnConnection. -/
structure CfnConnectionProps where
  authorizationType : String
  oauth : OAuthParametersProps
deriving DecidableEq, Repr

/-- Properties of the `destination` CfnApiDestination. -/
structure CfnApiDestinationProps where
  connectionArn : Token
  httpMethod : String
  invocationEndpoint : Token
deriving DecidableEq, Repr

/-- One IAM policy statement of the role's inline policy. -/
structure PolicyStatementProps where
  resources : List Token
  actions : List String
deriving DecidableEq, Repr

/-- Properties of the `role` IAM Role. -/
structure RoleProps where
  assumedByService : String
  inlinePolicies : List (String × List PolicyStatementProps)
deriving DecidableEq, Repr

/-- Input transformer of a rule target. -/
structure InputTransformerProps where
  inputPathsMap : List (String × String)
  inputTemplate : String
deriving DecidableEq, Repr

/-- One target of the routing rule. -/
structure RuleTargetProps where
  id : String
  arn : Token
  roleArn : Token
  transformer : InputTransformerProps
deriving DecidableEq, Repr

/-- Event pattern of the routing rule. -/
structure EventPatternProps where
  source : List String
  detailType : List String
deriving DecidableEq, Repr

/-- Properties of the `rule` CfnRule. -/
structure CfnRuleProps where
  name : String
  eventBusName : Token
  eventPattern : EventPatternProps
  targets : List RuleTargetProps
deriving DecidableEq, Repr

/-- A CfnOutput declaration: its construct id and its value. -/
structure OutputProps where
  id : String
  value : Token
deriving DecidableEq, Repr

/-- Request mapping template of the `Mutation.updateTodo` resolver, the exact
module-level string constant of `main.ts` (literal braces written with
escapes). -/
def requestTemplate : String :=
  "\n#set( $createdAt = $util.time.nowISO8601() )\n$util.qr($context.args.put(\"createdAt\", $createdAt))\n$util.qr($context.args.put(\"updatedAt\", $createdAt))\n\x7b\n  \"version\": \"2017-02-28\",\n  \"payload\": $util.toJson($ctx.args)\n\x7d"

/-- Response mapping template of the `Mutation.updateTodo` resolver, the
exact module-level string constant of `main.ts`. -/
def responseTemplate : String :=
  "$util.toJson($context.result)"

/-- List of the inline string mapping templates defined at module level in
`main.ts` (the file defines exactly these two constants). -/
def inlineMappingTemplates : List String :=
  [requestTemplate, responseTemplate]

/-- Raw multi-line template literal of the rule target's input template,
before the `.replace` normalization, byte for byte as written in `main.ts`
(literal braces written with escapes). -/
def rawInputTemplate : String :=
  "\x7b\n              \"query\": \"mutation UpdateTodo($id:ID!, $name:String, $description:String) \x7b\n                updateTodo(id:$id, name:$name, description:$description) \x7b id name description createdAt updatedAt \x7d\n              \x7d\",\n              \"variables\": \x7b\n                \"id\": \"<id>\",\n                \"name\": \"<name>\",\n                \"description\": \"<description>\"\n              \x7d\n            \x7d"

/-- Whitespace class of the JavaScript regular-expression `\s` escape
(restricted to the ASCII whitespace characters; the source literal contains
only spaces and newlines). -/
def isJsWs (c : Char) : Bool :=
  c = ' ' || c = '\t' || c = '\n' || c = '\r' || c = '\x0b' || c = '\x0c'

/-- Worker of the `.replace(/\n\s*/g, ' ')` normalization: the flag records
whether the scanner is inside the `\s*` run that follows a matched newline
(in which case further whitespace is consumed by the same match). -/
def jsReplaceAux : Bool → List Char → List Char
  | _, [] => []
  | true, c :: cs =>
      if isJsWs c then jsReplaceAux true cs
      else c :: jsReplaceAux false cs
  | false, c :: cs =>
      if c = '\n' then ' ' :: jsReplaceAux true cs
      else c :: jsReplaceAux false cs

/-- The JavaScript expression `s.replace(/\n\s*/g, ' ')`: every newline
together with the maximal whitespace run following it is replaced by a
single space. -/
def jsReplaceNewlineWs (s : String) : String :=
  String.mk (jsReplaceAux false s.data)

/-- The input template actually handed to the rule target: the raw literal
after the `.replace(/\n\s*/g, ' ')` normalization. -/
def inputTemplate : String :=
  jsReplaceNewlineWs rawInputTemplate

/-- Expressions of the VTL fragment used by the request template. -/
inductive VtlExpr where
  | nowISO8601 : VtlExpr
  | var (name : String) : VtlExpr
deriving DecidableEq, Repr

/-- Statements of the VTL fragment used by the request template: a `#set`
of a local variable, and a `$util.qr($context.args.put(key, e))` mutation of
the arguments map. -/
inductive VtlStmt where
  | set (name : String) (e : VtlExpr) : VtlStmt
  | qrArgsPut (key : String) (e : VtlExpr) : VtlStmt
deriving DecidableEq, Repr

/-- Statement part of the request mapping template, one constructor per
source line. -/
def requestTemplateStmts : List VtlStmt :=
  [VtlStmt.set "createdAt" VtlExpr.nowISO8601,
   VtlStmt.qrArgsPut "createdAt" (VtlExpr.var "createdAt"),
   VtlStmt.qrArgsPut "updatedAt" (VtlExpr.var "createdAt")]

/-- Rendering of a VTL expression back to template source text. -/
def renderVtlExpr : VtlExpr → String
  | VtlExpr.nowISO8601 => "$util.time.nowISO8601()"
  | VtlExpr.var n => "$" ++ n

/-- Rendering of a VTL statement back to template source text. -/
def renderVtlStmt : VtlStmt → String
  | VtlStmt.set n e => "#set( $" ++ n ++ " = " ++ renderVtlExpr e ++ " )"
  | VtlStmt.qrArgsPut k e =>
      "$util.qr($context.args.put(\"" ++ k ++ "\", " ++ renderVtlExpr e ++ "))"

/-- Rendering of the whole request template: a leading newline, the three
statements on their own lines, then the emitted JSON document with the
version marker and the serialized arguments as payload. -/
def renderRequestTemplate : String :=
  "\n" ++ String.intercalate "\n" (requestTemplateStmts.map renderVtlStmt) ++
    "\n\x7b\n  \"version\": \"2017-02-28\",\n  \"payload\": $util.toJson($ctx.args)\n\x7d"

/-- Lookup of a VTL local variable. -/
def lookupVar (k : String) : List (String × String) → Option String
  | [] => none
  | (k', v) :: rest => if k' = k then some v else lookupVar k rest

/-- Evaluation of a VTL expression: `$util.time.nowISO8601()` yields the
single current ISO-8601 time of the evaluation (passed in as `now`), a
variable reference yields its bound value. -/
def evalVtlExpr (now : String) (env : List (String × String)) :
    VtlExpr → String
  | VtlExpr.nowISO8601 => now
  | VtlExpr.var n => (lookupVar n env).getD ""

/-- Running the statement list: `#set` extends the variable environment,
`qrArgsPut` puts a string value into the arguments map; the final arguments
map is returned. -/
def runVtlStmts (now : String) (env : List (String × String))
    (args : List (String × Json)) : List VtlStmt → List (String × Json)
  | [] => args
  | VtlStmt.set n e :: rest =>
      runVtlStmts now ((n, evalVtlExpr now env e) :: env) args rest
  | VtlStmt.qrArgsPut k e :: rest =>
      runVtlStmts now env (putEntry args k (Json.str (evalVtlExpr now env e)))
        rest

/-- Arguments map produced by the request template's statements. -/
def requestTemplateArgs (now : String) (args : List (String × Json)) :
    List (String × Json) :=
  runVtlStmts now [] args requestTemplateStmts

/-- JSON document emitted by the request mapping template (the template
engine emits its serialization): the fixed version marker, and as payload
the JSON serialization of the augmented arguments map. -/
def evalRequestTemplate (now : String) (args : List (String × Json)) : Json :=
  Json.obj [("version", Json.str "2017-02-28"),
            ("payload", Json.obj (requestTemplateArgs now args))]

/-- JSON value emitted by the response mapping template
`$util.toJson($context.result)`: the serialization of the result itself,
i.e. the identity transformation at the JSON level. -/
def evalResponseTemplate (result : Json) : Json :=
  result

/-- The synthesized MainStack: one field per construct declared by the
constructor of `MainStack` in `main.ts`, in declaration order, plus the list
of construct ids, the explicit `addDependsOn` declarations and the outputs. -/
structure MainStackModel where
  authDomainParameter : CfnParameterProps
  auth : AuthConstruct
  authorizerFunction : PythonFunctionProps
  api : GraphqlApiProps
  permissions : List PermissionProps
  dataSources : List String
  resolvers : List ResolverProps
  bus : CfnEventBusProps
  connection : CfnConnectionProps
  destination : CfnApiDestinationProps
  role : RoleProps
  rule : CfnRuleProps
  constructIds : List String
  dependsOnDecls : List (String × String)
  outputs : List OutputProps
deriving DecidableEq, Repr

/-- Construction of the stack, mirroring the constructor body of `MainStack`
statement by statement.  `sourceAccount` is the synthesis-time value of
`process.env.CDK_DEPLOYED_ACCOUNT || process.env.CDK_DEFAULT_ACCOUNT`. -/
def mainStack (sourceAccount : Option String) : MainStackModel :=
  let apiProps : GraphqlApiProps :=
    { name := "TriggeredByEventBridge"
      schemaAsset := "schema.graphql"
      defaultAuthorization :=
        { authorizationType := AuthorizationType.API_KEY
          lambdaHandler := none }
      additionalAuthorizationModes :=
        [{ authorizationType := AuthorizationType.LAMBDA
           lambdaHandler := some "AuthorizerFunction" }] }
  { authDomainParameter :=
      { type := "String", description := "Unique domain name for auth" }
    auth := { authDomainPrefixValue := Token.ref "authDomainName" }
    authorizerFunction :=
      { entry := "authorizer"
        index := "app.py"
        runtime := "PYTHON_3_8"
        environment :=
          [("USER_POOL_ID", Token.authAttr "userPoolId"),
           ("APP_CLIENT_ID", Token.authAttr "destinationClientId")] }
    api := apiProps
    permissions :=
      [{ id := "AppSyncInvokeLambdaPermission"
         principal := "appsync.amazonaws.com"
         sourceArn := Token.getAtt "Api" "Arn"
         sourceAccount := sourceAccount }]
    dataSources := ["NONE"]
    resolvers :=
      [{ dataSourceName := "NONE"
         typeName := "Mutation"
         fieldName := "updateTodo"
         requestMappingTemplate := requestTemplate
         responseMappingTemplate := responseTemplate }]
    bus := { name := "todos" }
    connection :=
      { authorizationType := "OAUTH_CLIENT_CREDENTIALS"
        oauth :=
          { authorizationEndpoint :=
              Token.concat (Token.authAttr "authEndpoint")
                (Token.lit "/oauth2/token")
            clientID := Token.authAttr "destinationClientId"
            clientSecret := Token.authAttr "destinationClientSecret"
            httpMethod := "POST"
            bodyParameters := [("grant_type", "client_credentials")] } }
    destination :=
      { connectionArn := Token.getAtt "connection" "Arn"
        httpMethod := "POST"
        invocationEndpoint := Token.getAtt "Api" "GraphQLUrl" }
    role :=
      { assumedByService := "events.amazonaws.com"
        inlinePolicies :=
          [("invokeAPI",
            [{ resources :=
                 [Token.concat (Token.lit "arn:aws:events:")
                    (Token.concat (Token.pseudo "AWS::Region")
                      (Token.concat (Token.lit ":")
                        (Token.concat (Token.pseudo "AWS::AccountId")
                          (Token.concat (Token.lit ":api-destination/")
                            (Token.concat (Token.ref "destination")
                              (Token.lit "/*"))))))]
               actions := ["events:InvokeApiDestination"] }])] }
    rule :=
      { name := "default-todo-rule"
        eventBusName := Token.getAtt "bus" "Name"
        eventPattern :=
          { source := ["todos.system"]
            detailType := ["todos update"] }
        targets :=
          [{ id := "default-target-appsync"
             arn := Token.getAtt "destination" "Arn"
             roleArn := Token.getAtt "role" "Arn"
             transformer :=
               { inputPathsMap :=
                   [("id", "$.detail.todo-id"),
                    ("name", "$.detail.name"),
                    ("description", "$.detail.description")]
                 inputTemplate := inputTemplate } }] }
    constructIds :=
      ["authDomainName", "Auth", "AuthorizerFunction", "Api", "NONE",
       "bus", "connection", "destination", "role", "rule",
       "apiId", "apiName", "graphqlUrl", "apiKey"]
    dependsOnDecls := [("rule", "bus")]
    outputs :=
      [{ id := "apiId", value := Token.getAtt "Api" "ApiId" },
       { id := "apiName", value := Token.lit "TriggeredByEventBridge" },
       { id := "graphqlUrl", value := Token.getAtt "Api" "GraphQLUrl" },
       { id := "apiKey", value := apiProps.apiKeyAttr.get! }] }

/-- Scanner extracting the `<name>` placeholders of an input template, as
substituted by the rule target's input transformer: the accumulator holds
the partial name while inside an open placeholder. -/
def placeholdersAux : Option String → List Char → List String
  | _, [] => []
  | none, c :: cs =>
      if c = '<' then placeholdersAux (some "") cs
      else placeholdersAux none cs
  | some acc, c :: cs =>
      if c = '>' then acc :: placeholdersAux none cs
      else placeholdersAux (some (acc.push c)) cs

/-- Placeholders occurring in a template string, in order. -/
def placeholders (s : String) : List String :=
  placeholdersAux none s.data

/-- Substitution of the `<name>` placeholders of a template by the values
given by `f`, the transformation the input transformer applies to build the
request body (an unterminated placeholder is kept verbatim). -/
def substAux (f : String → String) : Option String → List Char → List Char
  | none, [] => []
  | some acc, [] => '<' :: acc.data
  | none, c :: cs =>
      if c = '<' then substAux f (some "") cs
      else c :: substAux f none cs
  | some acc, c :: cs =>
      if c = '>' then (f acc).data ++ substAux f none cs
      else substAux f (some (acc.push c)) cs

/-- Request body built from a template by substituting every placeholder. -/
def substPlaceholders (s : String) (f : String → String) : String :=
  String.mk (substAux f none s.data)

/-- Looking up the key just put into the arguments map yields the value
that was put. -/
theorem lookupField_putEntry_self (l : List (String × Json)) (k : String)
    (v : Json) : lookupField k (putEntry l k v) = some v := by
  induction l with
  | nil => simp [putEntry, lookupField]
  | cons hd tl ih =>
    obtain ⟨k', v'⟩ := hd
    by_cases h : k' = k
    · simp [putEntry, h, lookupField]
    · simp [putEntry, h, lookupField, ih]

/-- Putting a key into the arguments map leaves the lookup of every other
key unchanged. -/
theorem lookupField_putEntry_ne (l : List (String × Json)) (k k' : String)
    (v : Json) (h : k' ≠ k) :
    lookupField k' (putEntry l k v) = lookupField k' l := by
  induction l with
  | nil => simp [putEntry, lookupField, Ne.symm h]
  | cons hd tl ih =>
    obtain ⟨k'', v''⟩ := hd
    by_cases h2 : k'' = k
    · subst h2
      simp [putEntry, lookupField, Ne.symm h]
    · simp [putEntry, h2, lookupField, ih]
/-- The newline-normalization worker never emits a newline character, in
either scanner state. -/
theorem newline_not_mem_jsReplaceAux (cs : List Char) :
    ∀ b : Bool, '\n' ∉ jsReplaceAux b cs := by
  induction cs with
  | nil =>
    intro b
    cases b <;> simp [jsReplaceAux]
  | cons c cs ih =>
    intro b
    cases b with
    | true =>
      cases hw : isJsWs c with
      | true => simpa [jsReplaceAux, hw] using ih true
      | false =>
        have hc : c ≠ '\n' := by
          intro e
          subst e
          simp [isJsWs] at hw
        simp only [jsReplaceAux, hw, Bool.false_eq_true, if_false,
          List.mem_cons]
        rintro (e | e)
        · exact hc e.symm
        · exact ih false e
    | false =>
      by_cases hn : c = '\n'
      · simp only [jsReplaceAux, hn, if_true, List.mem_cons]
        rintro (e | e)
        · exact absurd e (by decide)
        · exact ih true e
      · simp only [jsReplaceAux, hn, if_false, List.mem_cons]
        rintro (e | e)
        · exact hn e.symm
        · exact ih false e

/-- Normalized strings contain no newline character. -/
theorem newline_not_mem_jsReplaceNewlineWs (s : String) :
    '\n' ∉ (jsReplaceNewlineWs s).data :=
  newline_not_mem_jsReplaceAux s.data false

/-- Substitution only depends on the values of the substitution function at
the placeholders the template actually contains. -/
theorem substAux_congr (cs : List Char) :
    ∀ (st : Option String) (f g : String → String),
      (∀ k ∈ placeholdersAux st cs, f k = g k) →
      substAux f st cs = substAux g st cs := by
  induction cs with
  | nil =>
    intro st f g _
    cases st <;> rfl
  | cons c cs ih =>
    intro st f g hfg
    cases st with
    | none =>
      by_cases h : c = '<'
      · simp only [substAux, h, if_true]
        exact ih (some "") f g (by simpa [placeholdersAux, h] using hfg)
      · simp only [substAux, h, if_false]
        rw [ih none f g (by simpa [placeholdersAux, h] using hfg)]
    | some acc =>
      by_cases h : c = '>'
      · have h1 : f acc = g acc := hfg acc (by simp [placeholdersAux, h])
        simp only [substAux, h, if_true]
        rw [h1, ih none f g
          (by
            have := by simpa [placeholdersAux, h] using hfg
            exact this.2)]
      · simp only [substAux, h, if_false]
        exact ih (some (acc.push c)) f g
          (by simpa [placeholdersAux, h] using hfg)

/-- Substitution into a template string only depends on the substitution
function's values at the template's placeholders. -/
theorem substPlaceholders_congr (s : String) (f g : String → String)
    (h : ∀ k ∈ placeholders s, f k = g k) :
    substPlaceholders s f = substPlaceholders s g := by
  unfold substPlaceholders
  rw [substAux_congr s.data none f g h]

/-- The arguments map after the request template's statements: both
timestamp keys are put with the one value of the single `#set`. -/
theorem requestTemplateArgs_eq (now : String) (args : List (String × Json)) :
    requestTemplateArgs now args =
      putEntry (putEntry args "createdAt" (Json.str now)) "updatedAt"
        (Json.str now) := by
  simp [requestTemplateArgs, requestTemplateStmts, runVtlStmts, evalVtlExpr,
    lookupVar]

/-- C1: the request mapping template attached to the Mutation.updateTodo
resolver applies exactly the fixed transformation: it computes one current
ISO-8601 time, puts it into the arguments under the keys createdAt and
updatedAt, and emits a payload that is the JSON serialization of the
augmented arguments (with the fixed version marker); the response mapping
template is a pure JSON passthrough of the result; the template AST renders
exactly to the source string, and the resolver of the stack carries exactly
these two templates. -/
theorem updateTodo_mapping_templates_fixed_transformation :
    (∀ (now : String) (args : List (String × Json)),
      evalRequestTemplate now args =
        Json.obj [("version", Json.str "2017-02-28"),
                  ("payload", Json.obj
                    (putEntry (putEntry args "createdAt" (Json.str now))
                      "updatedAt" (Json.str now)))]) ∧
    (∀ r : Json, evalResponseTemplate r = r) ∧
    renderRequestTemplate = requestTemplate ∧
    (∀ sa : Option String,
      (mainStack sa).resolvers.map
          (fun r => (r.typeName, r.fieldName, r.requestMappingTemplate,
            r.responseMappingTemplate)) =
        [("Mutation", "updateTodo", requestTemplate, responseTemplate)]) := by
  refine ⟨?_, ?_, rfl, ?_⟩
  · intro now args
    simp [evalRequestTemplate, requestTemplateArgs_eq]
  · intro r
    rfl
  · intro sa
    rfl

/-- C2: the routing rule's event pattern has source exactly the single
string "todos.system" and detail-type exactly the single string
"todos update", for every synthesis of the stack. -/
theorem rule_event_pattern_fixed_source_and_detail_type :
    ∀ sa : Option String,
      (mainStack sa).rule.eventPattern.source = ["todos.system"] ∧
      (mainStack sa).rule.eventPattern.detailType = ["todos update"] := by
  intro sa
  exact ⟨rfl, rfl⟩

/-- C3: the rule has a single target pointing at the API destination whose
invocation endpoint is the GraphQL API's URL; its input transformer extracts
exactly the three fields $.detail.todo-id, $.detail.name and
$.detail.description as the variables id, name and description of the one
constant UpdateTodo mutation template, whose placeholders are exactly those
three, so no other part of the request body depends on the event. -/
theorem rule_target_fixed_mutation_request_shape :
    ∀ sa : Option String,
      (mainStack sa).rule.targets.length = 1 ∧
      (mainStack sa).rule.targets.map (fun t => t.arn) =
        [Token.getAtt "destination" "Arn"] ∧
      (mainStack sa).destination.invocationEndpoint =
        Token.getAtt "Api" "GraphQLUrl" ∧
      (mainStack sa).rule.targets.map
          (fun t => t.transformer.inputPathsMap) =
        [[("id", "$.detail.todo-id"), ("name", "$.detail.name"),
          ("description", "$.detail.description")]] ∧
      (mainStack sa).rule.targets.map
          (fun t => t.transformer.inputTemplate) = [inputTemplate] ∧
      placeholders inputTemplate = ["id", "name", "description"] ∧
      (∀ f g : String → String,
        (∀ k ∈ ["id", "name", "description"], f k = g k) →
        substPlaceholders inputTemplate f =
          substPlaceholders inputTemplate g) := by
  intro sa
  refine ⟨rfl, rfl, rfl, rfl, rfl, by decide, ?_⟩
  intro f g h
  apply substPlaceholders_congr
  intro k hk
  apply h
  have hp : placeholders inputTemplate = ["id", "name", "description"] := by
    decide
  rw [hp] at hk
  exact hk

/-- Witness for C3 at concrete substitution functions agreeing on the three
placeholder keys. -/
theorem rule_target_fixed_mutation_request_shape_witness :
    substPlaceholders inputTemplate (fun k => k) =
      substPlaceholders inputTemplate
        (fun k => if k = "x" then "y" else k) :=
  (rule_target_fixed_mutation_request_shape none).2.2.2.2.2.2
    (fun k => k) (fun k => if k = "x" then "y" else k) (by decide)

/-- C4 counterexample: the claim that no construct carries any declared
dependency beyond attribute passing fails: the rule carries an explicit
DependsOn declaration on the bus (rule.addDependsOn(bus) in the source). -/
theorem stack_has_explicit_dependsOn_counterexample :
    (mainStack none).dependsOnDecls ≠ [] ∧
    ("rule", "bus") ∈ (mainStack none).dependsOnDecls := by
  decide

/-- C4 (amended): the one and only explicit dependency declaration in the
stack is the rule's DependsOn on the bus; no other construct carries a
declared dependency beyond attribute passing. -/
theorem rule_explicit_dependsOn_only_on_bus :
    ∀ sa : Option String,
      (mainStack sa).dependsOnDecls = [("rule", "bus")] := by
  intro sa
  rfl

/-- C5: the connection is declared with authorization type
OAUTH_CLIENT_CREDENTIALS, authorization endpoint equal to the auth
construct's endpoint followed by "/oauth2/token", HTTP method POST, the
auth construct's destination client id and secret as client parameters and
the single body parameter grant_type=client_credentials; the destination's
connectionArn is exactly that connection's ARN. -/
theorem connection_oauth_client_credentials :
    ∀ sa : Option String,
      (mainStack sa).connection.authorizationType =
        "OAUTH_CLIENT_CREDENTIALS" ∧
      (mainStack sa).connection.oauth.authorizationEndpoint =
        Token.concat (Token.authAttr "authEndpoint")
          (Token.lit "/oauth2/token") ∧
      (mainStack sa).connection.oauth.httpMethod = "POST" ∧
      (mainStack sa).connection.oauth.clientID =
        Token.authAttr "destinationClientId" ∧
      (mainStack sa).connection.oauth.clientSecret =
        Token.authAttr "destinationClientSecret" ∧
      (mainStack sa).connection.oauth.bodyParameters =
        [("grant_type", "client_credentials")] ∧
      (mainStack sa).destination.connectionArn =
        Token.getAtt "connection" "Arn" := by
  intro sa
  exact ⟨rfl, rfl, rfl, rfl, rfl, rfl, rfl⟩

/-- C6: the MainStack constructor declares all eight listed resources (auth
domain construct, authorizer function, GraphQL API, event bus, connection,
API destination, IAM role, routing rule) and wires their identifiers: the
rule's eventBusName is the bus's name attribute, the rule target's arn is
the destination's ARN and its roleArn the role's ARN, the destination's
connectionArn is the connection's ARN, and the authorizer function's invoke
permission is scoped to the API's ARN. -/
theorem mainStack_declares_eight_resources_and_wiring :
    ∀ sa : Option String,
      (["Auth", "AuthorizerFunction", "Api", "bus", "connection",
        "destination", "role", "rule"].all
          (fun i => (mainStack sa).constructIds.contains i)) = true ∧
      (mainStack sa).rule.eventBusName = Token.getAtt "bus" "Name" ∧
      (mainStack sa).rule.targets.map (fun t => t.arn) =
        [Token.getAtt "destination" "Arn"] ∧
      (mainStack sa).rule.targets.map (fun t => t.roleArn) =
        [Token.getAtt "role" "Arn"] ∧
      (mainStack sa).destination.connectionArn =
        Token.getAtt "connection" "Arn" ∧
      (mainStack sa).permissions.map (fun p => p.sourceArn) =
        [Token.getAtt "Api" "Arn"] := by
  intro sa
  exact ⟨rfl, rfl, rfl, rfl, rfl, rfl⟩

/-- C7: exactly two inline string mapping templates are defined in the
repository's code, and both are attached to the single resolver of the
stack, for the mutation field Mutation.updateTodo on the none data source;
no other resolver or field carries a template. -/
theorem two_inline_mapping_templates_single_resolver :
    inlineMappingTemplates.length = 2 ∧
    inlineMappingTemplates = [requestTemplate, responseTemplate] ∧
    ∀ sa : Option String,
      (mainStack sa).resolvers =
        [{ dataSourceName := "NONE", typeName := "Mutation",
           fieldName := "updateTodo",
           requestMappingTemplate := requestTemplate,
           responseMappingTemplate := responseTemplate }] ∧
      (mainStack sa).dataSources = ["NONE"] := by
  refine ⟨rfl, rfl, ?_⟩
  intro sa
  exact ⟨rfl, rfl⟩

/-- C8: in the arguments map produced by the request mapping template, the
values under createdAt and updatedAt are always equal: both are bound to
the same single evaluation of the current-time expression. -/
theorem createdAt_eq_updatedAt_in_request_template :
    ∀ (now : String) (args : List (String × Json)),
      lookupField "createdAt" (requestTemplateArgs now args) =
        some (Json.str now) ∧
      lookupField "updatedAt" (requestTemplateArgs now args) =
        some (Json.str now) ∧
      lookupField "createdAt" (requestTemplateArgs now args) =
        lookupField "updatedAt" (requestTemplateArgs now args) := by
  intro now args
  have h1 : lookupField "createdAt" (requestTemplateArgs now args) =
      some (Json.str now) := by
    rw [requestTemplateArgs_eq]
    rw [lookupField_putEntry_ne _ _ _ _ (by decide)]
    exact lookupField_putEntry_self _ _ _
  have h2 : lookupField "updatedAt" (requestTemplateArgs now args) =
      some (Json.str now) := by
    rw [requestTemplateArgs_eq]
    exact lookupField_putEntry_self _ _ _
  exact ⟨h1, h2, h1.trans h2.symm⟩

/-- C9: the non-null assertion on api.apiKey in the stack's apiKey output
never fails: an API with default authorization mode API_KEY always has a
defined apiKey attribute, the stack's API is in that case, and the apiKey
output carries exactly that key attribute. -/
theorem apiKey_output_nonnull_assertion_safe :
    (∀ p : GraphqlApiProps,
      p.defaultAuthorization.authorizationType = AuthorizationType.API_KEY →
      (GraphqlApiProps.apiKeyAttr p).isSome = true) ∧
    ∀ sa : Option String,
      (mainStack sa).api.defaultAuthorization.authorizationType =
        AuthorizationType.API_KEY ∧
      GraphqlApiProps.apiKeyAttr (mainStack sa).api =
        some (Token.getAtt "ApiDefaultApiKey" "ApiKey") ∧
      (mainStack sa).outputs.map (fun o => (o.id, o.value)) =
        [("apiId", Token.getAtt "Api" "ApiId"),
         ("apiName", Token.lit "TriggeredByEventBridge"),
         ("graphqlUrl", Token.getAtt "Api" "GraphQLUrl"),
         ("apiKey", Token.getAtt "ApiDefaultApiKey" "ApiKey")] := by
  constructor
  · intro p h
    simp [GraphqlApiProps.apiKeyAttr, GraphqlApiProps.hasApiKeyMode, h]
  · intro sa
    exact ⟨rfl, rfl, rfl⟩

/-- Witness for C9 at the stack's own API configuration. -/
theorem apiKey_output_nonnull_assertion_safe_witness :
    (GraphqlApiProps.apiKeyAttr (mainStack none).api).isSome = true :=
  apiKey_output_nonnull_assertion_safe.1 (mainStack none).api rfl

/-- C10: the input template handed to the rule's input transformer is the
raw multi-line literal normalized by replacing every newline together with
its following whitespace run by a single space; the normalization never
leaves a newline, so the synthesized template value is a single-line
string. -/
theorem inputTemplate_contains_no_newline :
    inputTemplate = jsReplaceNewlineWs rawInputTemplate ∧
    (∀ s : String, '\n' ∉ (jsReplaceNewlineWs s).data) ∧
    '\n' ∉ inputTemplate.data ∧
    ∀ sa : Option String,
      (mainStack sa).rule.targets.map
        (fun t => t.transformer.inputTemplate) = [inputTemplate] := by
  refine ⟨rfl, newline_not_mem_jsReplaceNewlineWs,
    newline_not_mem_jsReplaceNewlineWs rawInputTemplate, ?_⟩
  intro sa
  rfl
